import Mathlib

/-!
Shallow embedding of the Paperless-AI MCP server adapter layer
(mcp-server.js): the tool dispatcher, the search handler
(searchDocuments) and the retrieval handler (getDocument), together with
the JavaScript value conventions the source relies on (truthiness of
numbers and strings, Array.prototype.slice, optional chaining).
Collaborator services (ragService, paperlessService) are modelled as
function-valued parameters returning Except, where an Except.error value
stands for a rejected promise or thrown exception.
-/

/-- Model of a JavaScript logical-or on an optional number, as in the
source expression args.max_results || 5: undefined and 0 are falsy and
select the default. -/
def jsOrNum (x : Option Int) (d : Int) : Int :=
  match x with
  | some n => if n = 0 then d else n
  | none => d

/-- JavaScript logical-or on an optional string, as in the source
expression doc.snippet || fallback: undefined and the empty string are
falsy and select the fallback. -/
def jsOrStr (a b : Option String) : Option String :=
  match a with
  | some s => if s = "" then b else some s
  | none => b

/-- JavaScript logical-or against null on an optional string, as in the
source expression correspondent?.name || null: undefined and the empty
string collapse to null. -/
def jsOrNull (x : Option String) : Option String :=
  match x with
  | some s => if s = "" then none else some s
  | none => none

/-- Array.prototype.slice(0, e) of JavaScript on a list: a negative end
index counts from the end of the list, a nonnegative one is clamped to
the length; the result is always a prefix of the input. -/
def jsSliceTo {α : Type} (l : List α) (e : Int) : List α :=
  if e < 0 then l.take (l.length - (-e).toNat) else l.take e.toNat

/-- JavaScript truthiness of an optional numeric identifier, as in the
source test `if (metadata.correspondent)`: absent, null and 0 are falsy. -/
def numTruthy (c : Option Int) : Bool :=
  match c with
  | some cid => cid != 0
  | none => false

/-- A scored match returned by the RAG search collaborator. Scores are
carried through the projection unchanged, so their numeric type is
immaterial and they are modelled as integers; snippet and text may be
absent on the JavaScript object. -/
structure RagDoc where
  doc_id : Int
  title : String
  score : Int
  snippet : Option String
  text : Option String
deriving DecidableEq

/-- The record the search handler projects each retained match to:
`{doc_id, title, score, snippet}`; the snippet key is absent when the
source expression evaluates to undefined. -/
structure ProjectedDoc where
  doc_id : Int
  title : String
  score : Int
  snippet : Option String
deriving DecidableEq

/-- The date-range and correspondent filters the search handler forwards
to the search collaborator. -/
structure SearchFilters where
  from_date : Option String
  to_date : Option String
  correspondent : Option String
deriving DecidableEq

/-- The search collaborator (ragService.search): a query string and
filters yield either an ordered match list or a thrown error. -/
def RagService : Type :=
  String → SearchFilters → Except String (List RagDoc)

/-- The raw argument object of a tool call; each handler reads only the
fields it uses. max_results is optional (absent encodes undefined). -/
structure ToolArgs where
  query : String
  max_results : Option Int
  from_date : Option String
  to_date : Option String
  correspondent : Option String
  document_id : Int
deriving DecidableEq

/-- The metadata record the repository collaborator returns for a
document: title, tag identifiers, optional correspondent identifier and
timestamps. -/
structure DocMetadata where
  title : String
  tags : Option (List Int)
  correspondent : Option Int
  created : String
  document_type : String
  added : String
  modified : String
deriving DecidableEq

/-- The record the correspondent-name lookup resolves to; its name field
may be absent. -/
structure CorrRecord where
  name : Option String
deriving DecidableEq

/-- The repository collaborator (paperlessService): content fetch,
metadata fetch, tag-name lookup and correspondent-name lookup, each of
which may throw. The correspondent lookup may resolve to null. -/
structure RepoService where
  getDocumentContent : Int → Except String String
  getDocument : Int → Except String DocMetadata
  getTagNameById : Int → Except String String
  getCorrespondentNameById : Int → Except String (Option CorrRecord)

/-- Promise.all on a pair: if either promise rejects the aggregate
rejects (with the message of a rejected component), otherwise both
values are returned. -/
def promiseAll2 {α β : Type} (a : Except String α) (b : Except String β) :
    Except String (α × β) :=
  match a, b with
  | .error e, _ => .error e
  | .ok _, .error e => .error e
  | .ok x, .ok y => .ok (x, y)

/-- One item of the content array of a response envelope: a type tag
(always the string text) and the payload standing for the JSON-encoded
text. -/
structure ContentItem (P : Type) where
  type : String
  text : P
deriving DecidableEq

/-- The uniform response envelope every handler returns: a content array
and the isError flag (absent on success in the source, which is falsy
and modelled as false). -/
structure Envelope (P : Type) where
  content : List (ContentItem P)
  isError : Bool
deriving DecidableEq

/-- A success envelope wrapping one payload. -/
def okEnvelope {P : Type} (p : P) : Envelope P :=
  { content := [{ type := "text", text := p }], isError := false }

/-- An error envelope wrapping one payload, with isError set. -/
def errorEnvelope {P : Type} (p : P) : Envelope P :=
  { content := [{ type := "text", text := p }], isError := true }

/-- The first payload of an envelope, when present. -/
def Envelope.payloadOf {P : Type} (e : Envelope P) : Option P :=
  e.content.head?.map ContentItem.text

/-- The JSON payload of a search response: either the success object
`{query, total_found, results}` or an error object `{error}`. -/
inductive SearchPayload where
  | ok (query : String) (total_found : Nat) (results : List ProjectedDoc)
  | err (error : String)
deriving DecidableEq

/-- The message of the capability-gate error envelope. -/
def disabledMsg : String :=
  "RAG service is not enabled. Please enable it in your environment configuration."

/-- Projection of one retained match, from the source: doc_id, title
and score are copied, and snippet is the source expression
doc.snippet || doc.text?.substring(0, 200). -/
def projectDoc (doc : RagDoc) : ProjectedDoc :=
  { doc_id := doc.doc_id
    title := doc.title
    score := doc.score
    snippet := jsOrStr doc.snippet (doc.text.map fun t => t.take 200) }

/-- The body of searchDocuments inside its try block. The env parameter
is the value of process.env.RAG_SERVICE_ENABLED. The returned boolean
records whether ragService.search was invoked; an Except.error result
stands for an exception reaching the catch clause. -/
def searchBody (env : Option String) (rag : RagService) (args : ToolArgs) :
    Except String (Envelope SearchPayload) × Bool :=
  if env ≠ some "true" then
    (.ok (errorEnvelope (.err disabledMsg)), false)
  else
    match rag args.query
        { from_date := args.from_date
          to_date := args.to_date
          correspondent := args.correspondent } with
    | .error e => (.error e, true)
    | .ok results =>
      let limitedResults := jsSliceTo results (jsOrNum args.max_results 5)
      (.ok (okEnvelope
        (.ok args.query results.length (limitedResults.map projectDoc))), true)

/-- The searchDocuments handler: the try body with its catch clause,
which wraps any exception into a Search error envelope. The boolean
records whether ragService.search was invoked. -/
def searchDocuments (env : Option String) (rag : RagService) (args : ToolArgs) :
    Envelope SearchPayload × Bool :=
  match searchBody env rag args with
  | (.ok e, b) => (e, b)
  | (.error msg, b) => (errorEnvelope (.err ("Search error: " ++ msg)), b)

/-- The document record assembled by the retrieval handler. -/
structure DocumentRecord where
  id : Int
  title : String
  content : String
  tags : List String
  correspondent : Option String
  created : String
  document_type : String
  added : String
  modified : String
deriving DecidableEq

/-- The JSON payload of a retrieval response: the assembled document
record on success or an error object `{error}`. -/
inductive DocPayload where
  | ok (record : DocumentRecord)
  | err (error : String)
deriving DecidableEq

/-- Tag-name resolution of the retrieval handler: when the metadata has
a nonempty tag list, each identifier is resolved best-effort (a throw is
caught and yields null) and the nulls are filtered out; otherwise the
list stays empty. -/
def tagNamesOf (lookup : Int → Except String String) (tags : Option (List Int)) :
    List String :=
  match tags with
  | some ts =>
    if ts.length > 0 then
      (ts.map fun tagId =>
        match lookup tagId with
        | .ok n => some n
        | .error _ => (none : Option String)).reduceOption
    else []
  | none => []

/-- Correspondent-name resolution of the retrieval handler: attempted
only when the identifier is truthy; a throw is caught and leaves the
name null, and a null record or absent name collapses to null. -/
def correspondentNameOf (lookup : Int → Except String (Option CorrRecord))
    (c : Option Int) : Option String :=
  match c with
  | some cid =>
    if cid ≠ 0 then
      match lookup cid with
      | .ok corr => jsOrNull (corr.bind CorrRecord.name)
      | .error _ => none
    else none
  | none => none

/-- The body of getDocument inside its try block: fetch content and
metadata via Promise.all, resolve tag names and the correspondent name,
and assemble the success envelope. The returned boolean records whether
the correspondent-name lookup was invoked; an Except.error result stands
for an exception reaching the catch clause. -/
def getDocumentBody (repo : RepoService) (args : ToolArgs) :
    Except String (Envelope DocPayload) × Bool :=
  match promiseAll2 (repo.getDocumentContent args.document_id)
      (repo.getDocument args.document_id) with
  | .error e => (.error e, false)
  | .ok (content, metadata) =>
    let tagNames := tagNamesOf repo.getTagNameById metadata.tags
    let correspondentName :=
      correspondentNameOf repo.getCorrespondentNameById metadata.correspondent
    (.ok (okEnvelope (.ok
      { id := args.document_id
        title := metadata.title
        content := content
        tags := tagNames
        correspondent := correspondentName
        created := metadata.created
        document_type := metadata.document_type
        added := metadata.added
        modified := metadata.modified })), numTruthy metadata.correspondent)

/-- The getDocument handler: the try body with its catch clause, which
wraps any exception into a Document retrieval error envelope. The
boolean records whether the correspondent-name lookup was invoked. -/
def getDocument (repo : RepoService) (args : ToolArgs) :
    Envelope DocPayload × Bool :=
  match getDocumentBody repo args with
  | (.ok e, b) => (e, b)
  | (.error msg, b) =>
    (errorEnvelope (.err ("Document retrieval error: " ++ msg)), b)

/-- The tool dispatcher of setupHandlers: the two known names route to
their handlers and any other name throws an Unknown tool error, modelled
as an Except.error that propagates to the caller instead of an
envelope. -/
def handleToolCall (env : Option String) (rag : RagService) (repo : RepoService)
    (name : String) (args : ToolArgs) :
    Except String ((Envelope SearchPayload × Bool) ⊕ (Envelope DocPayload × Bool)) :=
  if name = "search_documents" then .ok (.inl (searchDocuments env rag args))
  else if name = "get_document" then .ok (.inr (getDocument repo args))
  else .error ("Unknown tool: " ++ name)

/-- The results list of a search envelope, when its payload is a success
payload. -/
def searchResultsOf (e : Envelope SearchPayload) : Option (List ProjectedDoc) :=
  match e.payloadOf with
  | some (.ok _ _ rs) => some rs
  | _ => none

/-- The total_found field of a search envelope, when its payload is a
success payload. -/
def totalFoundOf (e : Envelope SearchPayload) : Option Nat :=
  match e.payloadOf with
  | some (.ok _ tf _) => some tf
  | _ => none

/-- The document record of a retrieval envelope, when its payload is a
success payload. -/
def docRecordOf (e : Envelope DocPayload) : Option DocumentRecord :=
  match e.payloadOf with
  | some (.ok r) => some r
  | _ => none

/-- The mutable world a search call can observe: the capability
environment variable and the backing data of the search collaborator.
The source reads both and assigns neither. -/
structure World where
  ragServiceEnabled : Option String
  ragService : RagService

/-- State-passing form of the search handler: the body of
searchDocuments contains no assignment to anything outside its local
scope, so the world comes back unchanged beside the returned
envelope. -/
def searchDocumentsW (w : World) (args : ToolArgs) :
    (Envelope SearchPayload × Bool) × World :=
  (searchDocuments w.ragServiceEnabled w.ragService args, w)

/-- A concrete argument object for concrete evaluations. -/
def sampleArgs : ToolArgs :=
  { query := "invoice"
    max_results := none
    from_date := none
    to_date := none
    correspondent := none
    document_id := 123 }

/-- A concrete match with a dedicated snippet. -/
def oneDoc : RagDoc :=
  { doc_id := 7, title := "t", score := 1, snippet := some "s", text := none }

/-- A search collaborator returning a single match for every query. -/
def ragOne : RagService := fun _ _ => .ok [oneDoc]

/-- A concrete argument object requesting zero results. -/
def zeroArgs : ToolArgs :=
  { query := "q"
    max_results := some 0
    from_date := none
    to_date := none
    correspondent := none
    document_id := 0 }

/-- Eight concrete matches. -/
def eightDocs : List RagDoc :=
  (List.range 8).map fun n =>
    { doc_id := Int.ofNat n, title := "t", score := 1, snippet := some "s", text := none }

/-- A search collaborator returning eight matches for every query. -/
def ragEight : RagService := fun _ _ => .ok eightDocs

/-- A search collaborator that throws on every query. -/
def ragBoom : RagService := fun _ _ => .error "boom"

/-- A repository collaborator whose content and metadata fetches both
reject. -/
def repoBoom : RepoService :=
  { getDocumentContent := fun _ => .error "down"
    getDocument := fun _ => .error "down2"
    getTagNameById := fun _ => .ok "tag"
    getCorrespondentNameById := fun _ => .ok none }

/-- Concrete metadata carrying the tag identifiers 1 and 2. -/
def mdTags : DocMetadata :=
  { title := "Invoice"
    tags := some [1, 2]
    correspondent := none
    created := "2024-03-15"
    document_type := "Invoice"
    added := "2024-03-15"
    modified := "2024-03-15" }

/-- A repository collaborator for which the name of tag 1 resolves and
the lookup of every other tag throws. -/
def repoTags : RepoService :=
  { getDocumentContent := fun _ => .ok "body"
    getDocument := fun _ => .ok mdTags
    getTagNameById := fun tagId => if tagId = 1 then .ok "alpha" else .error "boom"
    getCorrespondentNameById := fun _ => .ok none }

/-- Concrete metadata carrying the correspondent identifier 9. -/
def mdCorr : DocMetadata :=
  { title := "T"
    tags := none
    correspondent := some 9
    created := "c"
    document_type := "d"
    added := "a"
    modified := "m" }

/-- A repository collaborator whose correspondent-name lookup throws. -/
def repoCorrFail : RepoService :=
  { getDocumentContent := fun _ => .ok "body"
    getDocument := fun _ => .ok mdCorr
    getTagNameById := fun _ => .ok "x"
    getCorrespondentNameById := fun _ => .error "corr down" }

/-- Concrete metadata carrying the falsy correspondent identifier 0. -/
def mdZero : DocMetadata :=
  { title := "Z"
    tags := none
    correspondent := some 0
    created := "c"
    document_type := "d"
    added := "a"
    modified := "m" }

/-- A repository collaborator whose correspondent-name lookup would
resolve to a named record. -/
def repoZero : RepoService :=
  { getDocumentContent := fun _ => .ok "zb"
    getDocument := fun _ => .ok mdZero
    getTagNameById := fun _ => .ok "x"
    getCorrespondentNameById := fun _ => .ok (some { name := some "SomeCorp" }) }

/-- A concrete match whose dedicated snippet is the empty string while
its full text is present. -/
def emptySnippetDoc : RagDoc :=
  { doc_id := 1, title := "t", score := 0, snippet := some "", text := some "hello world" }

/-- Unfolding of the search handler on a successful collaborator call
with the capability gate enabled. -/
theorem searchDocuments_ok (rag : RagService) (args : ToolArgs) (docs : List RagDoc)
    (hrag : rag args.query
      { from_date := args.from_date
        to_date := args.to_date
        correspondent := args.correspondent } = .ok docs) :
    searchDocuments (some "true") rag args
      = (okEnvelope (.ok args.query docs.length
          ((jsSliceTo docs (jsOrNum args.max_results 5)).map projectDoc)), true) := by
  simp [searchDocuments, searchBody, hrag]

/-- Unfolding of the retrieval handler on successful content and
metadata fetches. -/
theorem getDocument_ok (repo : RepoService) (args : ToolArgs)
    (content : String) (md : DocMetadata)
    (hc : repo.getDocumentContent args.document_id = .ok content)
    (hm : repo.getDocument args.document_id = .ok md) :
    getDocument repo args
      = (okEnvelope (.ok
          { id := args.document_id
            title := md.title
            content := content
            tags := tagNamesOf repo.getTagNameById md.tags
            correspondent :=
              correspondentNameOf repo.getCorrespondentNameById md.correspondent
            created := md.created
            document_type := md.document_type
            added := md.added
            modified := md.modified }), numTruthy md.correspondent) := by
  simp [getDocument, getDocumentBody, promiseAll2, hc, hm]

/-- Extracting the record from a success retrieval envelope. -/
theorem docRecordOf_okEnvelope (r : DocumentRecord) :
    docRecordOf (okEnvelope (.ok r)) = some r := rfl

/-- Extracting the results from a success search envelope. -/
theorem searchResultsOf_okEnvelope (q : String) (tf : Nat) (rs : List ProjectedDoc) :
    searchResultsOf (okEnvelope (.ok q tf rs)) = some rs := rfl

/-- Extracting the total_found field from a success search envelope. -/
theorem totalFoundOf_okEnvelope (q : String) (tf : Nat) (rs : List ProjectedDoc) :
    totalFoundOf (okEnvelope (.ok q tf rs)) = some tf := rfl

/-- The slice the search handler applies is always a prefix of its
input. -/
theorem jsSliceTo_initial {α : Type} (l : List α) (e : Int) : jsSliceTo l e <+: l := by
  unfold jsSliceTo
  by_cases h : e < 0
  · rw [if_pos h]; exact List.take_prefix _ _
  · rw [if_neg h]; exact List.take_prefix _ _

/-- C1 (amended): with the capability gate enabled and the collaborator
returning the match list docs, an explicit max_results of N at least 1
yields exactly the first N projected matches (so at most N), an omitted
max_results and a max_results of 0 (falsy in the source) each yield the
first 5 (the default cap), total_found is always the full match count,
and the results list is always a prefix of the projected full list,
never a re-ranking. The original claim instead required length at most
N already for N equal to 0. -/
theorem C1_search_truncation (env : Option String) (rag : RagService)
    (args : ToolArgs) (docs : List RagDoc) (N : Int)
    (hgate : env = some "true")
    (hrag : rag args.query
      { from_date := args.from_date
        to_date := args.to_date
        correspondent := args.correspondent } = .ok docs) :
    (args.max_results = some N → 1 ≤ N →
      (searchDocuments env rag args).fst
        = okEnvelope (.ok args.query docs.length ((docs.take N.toNat).map projectDoc))
      ∧ ((docs.take N.toNat).map projectDoc).length ≤ N.toNat)
    ∧ (args.max_results = none →
      (searchDocuments env rag args).fst
        = okEnvelope (.ok args.query docs.length ((docs.take 5).map projectDoc))
      ∧ ((docs.take 5).map projectDoc).length ≤ 5)
    ∧ (args.max_results = some 0 →
      (searchDocuments env rag args).fst
        = okEnvelope (.ok args.query docs.length ((docs.take 5).map projectDoc))
      ∧ ((docs.take 5).map projectDoc).length ≤ 5)
    ∧ totalFoundOf (searchDocuments env rag args).fst = some docs.length
    ∧ ∀ rs, searchResultsOf (searchDocuments env rag args).fst = some rs →
        rs <+: docs.map projectDoc := by
  subst hgate
  have hmain := searchDocuments_ok rag args docs hrag
  refine ⟨?_, ?_, ?_, ?_, ?_⟩
  · intro hmax hN
    have hNe : N ≠ 0 := by omega
    have hNneg : ¬ N < 0 := by omega
    constructor
    · rw [hmain]
      simp [jsOrNum, hmax, hNe, jsSliceTo, hNneg]
    · simp [List.length_take]
  · intro hmax
    constructor
    · rw [hmain]
      simp [jsOrNum, hmax, jsSliceTo]
    · simp [List.length_take]
  · intro hmax
    constructor
    · rw [hmain]
      simp [jsOrNum, hmax, jsSliceTo]
    · simp [List.length_take]
  · rw [hmain]
    exact totalFoundOf_okEnvelope _ _ _
  · intro rs hrs
    rw [hmain, searchResultsOf_okEnvelope] at hrs
    cases hrs
    exact (jsSliceTo_initial docs (jsOrNum args.max_results 5)).map projectDoc

/-- C1 witness: the default-cap scenario of the spec, at the concrete
gate value, an eight-match collaborator and arguments omitting
max_results: total_found is 8 and the results are the first five
projected matches; and the falsy max_results of 0 with one match also
falls back to the cap of 5, keeping the single projected match. -/
theorem C1_search_truncation_witness :
    sampleArgs.max_results = none
    ∧ (searchDocuments (some "true") ragEight sampleArgs).fst
        = okEnvelope (.ok "invoice" 8 ((eightDocs.take 5).map projectDoc))
    ∧ ((eightDocs.take 5).map projectDoc).length ≤ 5
    ∧ zeroArgs.max_results = some 0
    ∧ (searchDocuments (some "true") ragOne zeroArgs).fst
        = okEnvelope (.ok "q" 1 [projectDoc oneDoc]) :=
  ⟨rfl,
    ((C1_search_truncation (some "true") ragEight sampleArgs eightDocs 5 rfl rfl).2.1 rfl).1,
    ((C1_search_truncation (some "true") ragEight sampleArgs eightDocs 5 rfl rfl).2.1 rfl).2,
    rfl,
    ((C1_search_truncation (some "true") ragOne zeroArgs [oneDoc] 0 rfl rfl).2.2.1 rfl).1⟩

/-- C1 counterexample: with max_results set to 0 and one available
match, the source treats 0 as falsy and applies the default cap, so the
results list has length 1, which the claim (length at most N for every
N at least 0) forbids. -/
theorem C1_counterexample :
    zeroArgs.max_results = some 0
    ∧ ((searchResultsOf (searchDocuments (some "true") ragOne zeroArgs).fst).getD []).length = 1
    ∧ ¬ ((searchResultsOf (searchDocuments (some "true") ragOne zeroArgs).fst).getD []).length ≤ 0 := by
  refine ⟨rfl, by decide, by decide⟩

/-- C2: when the capability environment variable is anything other than
the string true, the search handler returns the disabled-service error
envelope with isError set, for every argument object; the boolean
component false records that ragService.search was not invoked, and the
result does not depend on the collaborator at all. -/
theorem C2_capability_gate (env : Option String) (rag : RagService) (args : ToolArgs)
    (hgate : env ≠ some "true") :
    searchDocuments env rag args = (errorEnvelope (.err disabledMsg), false)
    ∧ (searchDocuments env rag args).fst.isError = true
    ∧ ∀ ragAlt : RagService, searchDocuments env rag args = searchDocuments env ragAlt args := by
  have h : searchDocuments env rag args = (errorEnvelope (.err disabledMsg), false) := by
    simp [searchDocuments, searchBody, hgate]
  refine ⟨h, by rw [h]; rfl, fun ragAlt => ?_⟩
  rw [h]
  simp [searchDocuments, searchBody, hgate]

/-- C2 witness: with the environment variable unset, the concrete search
call returns the disabled-service envelope without invoking the
collaborator. -/
theorem C2_capability_gate_witness :
    (none : Option String) ≠ some "true"
    ∧ searchDocuments none ragOne sampleArgs = (errorEnvelope (.err disabledMsg), false) :=
  ⟨by decide, (C2_capability_gate none ragOne sampleArgs (by decide)).1⟩

/-- C5: a tool-call dispatch whose name is neither search_documents nor
get_document raises the Unknown tool error naming the tool, which
propagates to the caller instead of an envelope; the two known names
route to their handlers and return the handler envelope. -/
theorem C5_dispatch_unknown (env : Option String) (rag : RagService)
    (repo : RepoService) (name : String) (args : ToolArgs)
    (h1 : name ≠ "search_documents") (h2 : name ≠ "get_document") :
    handleToolCall env rag repo name args = .error ("Unknown tool: " ++ name)
    ∧ handleToolCall env rag repo "search_documents" args
        = .ok (.inl (searchDocuments env rag args))
    ∧ handleToolCall env rag repo "get_document" args
        = .ok (.inr (getDocument repo args)) := by
  refine ⟨by simp [handleToolCall, h1, h2], rfl, rfl⟩

/-- C5 witness: the spec scenario at the concrete name delete_document,
which dispatches to a propagated Unknown tool error. -/
theorem C5_dispatch_unknown_witness :
    ("delete_document" : String) ≠ "search_documents"
    ∧ ("delete_document" : String) ≠ "get_document"
    ∧ handleToolCall (some "true") ragOne repoBoom "delete_document" sampleArgs
        = .error ("Unknown tool: " ++ "delete_document") :=
  ⟨by decide, by decide,
    (C5_dispatch_unknown (some "true") ragOne repoBoom "delete_document" sampleArgs
      (by decide) (by decide)).1⟩

/-- C6: for every capability value, every collaborator behaviour
(including thrown exceptions) and every argument object, each handler
turns every outcome of its try body into exactly one returned envelope:
a successful body is returned as is, and a thrown body error is captured
and encoded as an error payload with isError set, never re-raised past
the handler boundary. -/
theorem C6_envelope_boundary (env : Option String) (rag : RagService)
    (repo : RepoService) (args dargs : ToolArgs) :
    (∀ e b, searchBody env rag args = (.ok e, b) →
      searchDocuments env rag args = (e, b))
    ∧ (∀ m b, searchBody env rag args = (.error m, b) →
      searchDocuments env rag args
          = (errorEnvelope (.err ("Search error: " ++ m)), b)
        ∧ (searchDocuments env rag args).fst.isError = true)
    ∧ (∀ e b, getDocumentBody repo dargs = (.ok e, b) →
      getDocument repo dargs = (e, b))
    ∧ (∀ m b, getDocumentBody repo dargs = (.error m, b) →
      getDocument repo dargs
          = (errorEnvelope (.err ("Document retrieval error: " ++ m)), b)
        ∧ (getDocument repo dargs).fst.isError = true) := by
  refine ⟨fun e b h => ?_, fun m b h => ?_, fun e b h => ?_, fun m b h => ?_⟩
  · simp [searchDocuments, h]
  · refine ⟨by simp [searchDocuments, h], by simp [searchDocuments, h, errorEnvelope]⟩
  · simp [getDocument, h]
  · refine ⟨by simp [getDocument, h], by simp [getDocument, h, errorEnvelope]⟩

/-- C6 witness: at a throwing search collaborator and a repository whose
fetches reject, both handlers return captured error envelopes instead of
propagating the exception. -/
theorem C6_envelope_boundary_witness :
    searchDocuments (some "true") ragBoom sampleArgs
      = (errorEnvelope (.err ("Search error: " ++ "boom")), true)
    ∧ getDocument repoBoom sampleArgs
      = (errorEnvelope (.err ("Document retrieval error: " ++ "down")), false) :=
  ⟨((C6_envelope_boundary (some "true") ragBoom repoBoom sampleArgs sampleArgs).2.1
      "boom" true rfl).1,
    ((C6_envelope_boundary (some "true") ragBoom repoBoom sampleArgs sampleArgs).2.2.2
      "down" false rfl).1⟩

/-- C9: in the state-passing reading of the search handler the world
(capability flag and collaborator backing data) is returned unchanged,
so running the same call twice in sequence yields identical envelopes
and leaves the world as it started: the handler reads no hidden mutable
state and mutates none. -/
theorem C9_search_stateless (w : World) (args : ToolArgs) :
    (searchDocumentsW w args).fst
      = (searchDocumentsW (searchDocumentsW w args).snd args).fst
    ∧ (searchDocumentsW (searchDocumentsW w args).snd args).snd = w :=
  ⟨rfl, rfl⟩

/-- A mapped list of values that are all defined loses nothing under
reduceOption. -/
theorem reduceOption_map_eq_of_forall {α β : Type} (l : List α)
    (g : α → Option β) (f : α → β)
    (h : ∀ x ∈ l, g x = some (f x)) : (l.map g).reduceOption = l.map f := by
  induction l with
  | nil => rfl
  | cons a t ih =>
    rw [List.map_cons, h a (by simp), List.reduceOption_cons_of_some,
      ih fun x hx => h x (by simp [hx]), List.map_cons]

/-- Tag resolution over a list in which exactly the middle identifier
throws: the failed entry is dropped and the surviving names keep their
original order. -/
theorem tagNamesOf_split (lookup : Int → Except String String)
    (l₁ l₂ : List Int) (t : Int) (e : String) (f : Int → String)
    (ht : lookup t = .error e)
    (h1 : ∀ x ∈ l₁, lookup x = .ok (f x))
    (h2 : ∀ x ∈ l₂, lookup x = .ok (f x)) :
    tagNamesOf lookup (some (l₁ ++ t :: l₂)) = l₁.map f ++ l₂.map f := by
  have hlen : (l₁ ++ t :: l₂).length > 0 := by simp
  unfold tagNamesOf
  dsimp only
  rw [if_pos hlen, List.map_append, List.map_cons, List.reduceOption_append]
  have hh : (match lookup t with
      | .ok n => some n
      | .error _ => (none : Option String)) = none := by
    simp [ht]
  rw [hh, List.reduceOption_cons_of_none,
    reduceOption_map_eq_of_forall l₁ _ f fun x hx => by simp [h1 x hx],
    reduceOption_map_eq_of_forall l₂ _ f fun x hx => by simp [h2 x hx]]

/-- C3: whenever the content fetch or the metadata fetch of a retrieval
call rejects, the handler returns an error envelope whose payload is the
Document retrieval error message, with isError set and no document
record (hence no partial document fields) in the payload. -/
theorem C3_fetch_rejection (repo : RepoService) (args : ToolArgs)
    (h : (∃ e, repo.getDocumentContent args.document_id = .error e)
       ∨ ∃ e, repo.getDocument args.document_id = .error e) :
    ∃ msg, (getDocument repo args).fst
        = errorEnvelope (.err ("Document retrieval error: " ++ msg))
      ∧ (getDocument repo args).fst.isError = true
      ∧ docRecordOf (getDocument repo args).fst = none := by
  cases hc : repo.getDocumentContent args.document_id with
  | error e =>
    refine ⟨e, ?_, ?_, ?_⟩ <;>
      simp [getDocument, getDocumentBody, promiseAll2, hc, errorEnvelope,
        docRecordOf, Envelope.payloadOf]
  | ok c =>
    rcases h with ⟨e, he⟩ | ⟨e, he⟩
    · rw [hc] at he; cases he
    · refine ⟨e, ?_, ?_, ?_⟩ <;>
        simp [getDocument, getDocumentBody, promiseAll2, hc, he, errorEnvelope,
          docRecordOf, Envelope.payloadOf]

/-- C3 witness: at a repository whose content fetch rejects with the
message down, the concrete retrieval call yields the Document retrieval
error envelope and no document record. -/
theorem C3_fetch_rejection_witness :
    repoBoom.getDocumentContent sampleArgs.document_id = .error "down"
    ∧ ∃ msg, (getDocument repoBoom sampleArgs).fst
        = errorEnvelope (.err ("Document retrieval error: " ++ msg))
      ∧ (getDocument repoBoom sampleArgs).fst.isError = true
      ∧ docRecordOf (getDocument repoBoom sampleArgs).fst = none :=
  ⟨rfl, C3_fetch_rejection repoBoom sampleArgs (Or.inl ⟨"down", rfl⟩)⟩

/-- C4: on a retrieval call whose content and metadata fetches succeed,
an empty or absent tag-ID list yields an empty output tag list, and when
exactly one of several tag resolutions throws while all others resolve,
the output has one name fewer than the tag-ID list and keeps the
surviving names in the original order. -/
theorem C4_tag_best_effort (repo : RepoService) (args : ToolArgs)
    (content : String) (md : DocMetadata)
    (hc : repo.getDocumentContent args.document_id = .ok content)
    (hm : repo.getDocument args.document_id = .ok md) :
    ((md.tags = some [] ∨ md.tags = none) →
      (docRecordOf (getDocument repo args).fst).map DocumentRecord.tags = some [])
    ∧ ∀ (l₁ l₂ : List Int) (t : Int) (e : String) (f : Int → String),
        md.tags = some (l₁ ++ t :: l₂) →
        repo.getTagNameById t = .error e →
        (∀ x ∈ l₁, repo.getTagNameById x = .ok (f x)) →
        (∀ x ∈ l₂, repo.getTagNameById x = .ok (f x)) →
        (docRecordOf (getDocument repo args).fst).map DocumentRecord.tags
          = some (l₁.map f ++ l₂.map f)
        ∧ (l₁.map f ++ l₂.map f).length + 1 = (l₁ ++ t :: l₂).length := by
  have hrec : (docRecordOf (getDocument repo args).fst).map DocumentRecord.tags
      = some (tagNamesOf repo.getTagNameById md.tags) := by
    rw [getDocument_ok repo args content md hc hm]
    rfl
  constructor
  · rintro (h | h) <;> rw [hrec, h] <;> simp [tagNamesOf]
  · intro l₁ l₂ t e f hts ht h1 h2
    constructor
    · rw [hrec, hts, tagNamesOf_split repo.getTagNameById l₁ l₂ t e f ht h1 h2]
    · simp
      omega

/-- C4 witness: the spec scenario with tag IDs 1 and 2 where resolving
tag 2 throws: the output tag list is exactly the name of tag 1. -/
theorem C4_tag_best_effort_witness :
    mdTags.tags = some [1, 2]
    ∧ repoTags.getTagNameById 2 = .error "boom"
    ∧ (docRecordOf (getDocument repoTags sampleArgs).fst).map DocumentRecord.tags
        = some ["alpha"] :=
  ⟨rfl, rfl,
    ((C4_tag_best_effort repoTags sampleArgs "body" mdTags rfl rfl).2
      [1] [] 2 "boom" (fun _ => "alpha") rfl rfl
      (fun x hx => by rw [List.mem_singleton] at hx; subst hx; rfl)
      (fun x hx => by cases hx)).1⟩

/-- C7 (amended): each retained result is projected to doc_id, title,
score and snippet; the snippet is the collaborator-supplied snippet when
a non-empty dedicated snippet exists, otherwise (including when the
supplied snippet is the empty string, which the source treats as falsy)
the first 200 characters of the full text, and when neither a truthy
snippet nor any text exists the snippet is absent and no error is
raised. The original claim used every existing dedicated snippet, empty
or not. -/
theorem C7_projection (d : RagDoc) :
    (projectDoc d).doc_id = d.doc_id
    ∧ (projectDoc d).title = d.title
    ∧ (projectDoc d).score = d.score
    ∧ (∀ s, d.snippet = some s → s ≠ "" → (projectDoc d).snippet = some s)
    ∧ ((d.snippet = none ∨ d.snippet = some "") →
        (projectDoc d).snippet = d.text.map fun t => t.take 200)
    ∧ (d.snippet = none → d.text = none → (projectDoc d).snippet = none) := by
  refine ⟨rfl, rfl, rfl, ?_, ?_, ?_⟩
  · intro s hs hne
    simp [projectDoc, jsOrStr, hs, hne]
  · rintro (h | h) <;> simp [projectDoc, jsOrStr, h]
  · intro hs ht
    simp [projectDoc, jsOrStr, hs, ht]

/-- C7 witness: a concrete match with the non-empty dedicated snippet s
keeps that snippet in the projection. -/
theorem C7_projection_witness :
    oneDoc.snippet = some "s" ∧ (projectDoc oneDoc).snippet = some "s" :=
  ⟨rfl, (C7_projection oneDoc).2.2.2.1 "s" rfl (by decide)⟩

set_option maxRecDepth 4000 in
/-- C7 counterexample: a match whose dedicated snippet exists but is the
empty string is projected with the first 200 characters of its text, not
with the supplied snippet the claim requires. -/
theorem C7_counterexample :
    emptySnippetDoc.snippet = some ""
    ∧ (projectDoc emptySnippetDoc).snippet = some "hello world"
    ∧ (projectDoc emptySnippetDoc).snippet ≠ emptySnippetDoc.snippet := by
  refine ⟨rfl, by decide, by decide⟩

/-- C8: on a retrieval call whose primary fetches succeed, an absent
correspondent identifier, a throwing correspondent-name lookup, a lookup
resolving to null, or a lookup resolving to a record without a name all
leave the output correspondent field null, while the call still returns
a success envelope with every other document field populated. -/
theorem C8_correspondent_degrade (repo : RepoService) (args : ToolArgs)
    (content : String) (md : DocMetadata)
    (hc : repo.getDocumentContent args.document_id = .ok content)
    (hm : repo.getDocument args.document_id = .ok md)
    (h : md.correspondent = none
       ∨ ∃ cid, md.correspondent = some cid ∧
          ((∃ e, repo.getCorrespondentNameById cid = .error e)
           ∨ repo.getCorrespondentNameById cid = .ok none
           ∨ ∃ r, repo.getCorrespondentNameById cid = .ok (some r) ∧ r.name = none)) :
    docRecordOf (getDocument repo args).fst = some
      { id := args.document_id
        title := md.title
        content := content
        tags := tagNamesOf repo.getTagNameById md.tags
        correspondent := none
        created := md.created
        document_type := md.document_type
        added := md.added
        modified := md.modified }
    ∧ (getDocument repo args).fst.isError = false := by
  have hcorr : correspondentNameOf repo.getCorrespondentNameById md.correspondent
      = none := by
    rcases h with h | ⟨cid, hcid, hres⟩
    · simp [correspondentNameOf, h]
    · rw [hcid]
      unfold correspondentNameOf
      dsimp only
      by_cases h0 : cid = 0
      · simp [h0]
      · rcases hres with ⟨e, he⟩ | he | ⟨r, hr, hn⟩
        · simp [h0, he]
        · simp [h0, he, jsOrNull]
        · simp [h0, hr, hn, jsOrNull]
  rw [getDocument_ok repo args content md hc hm, hcorr]
  exact ⟨rfl, rfl⟩

/-- C8 witness: at a repository whose correspondent-name lookup throws,
the concrete retrieval call succeeds with a null correspondent and the
other fields of the metadata. -/
theorem C8_correspondent_degrade_witness :
    repoCorrFail.getCorrespondentNameById 9 = .error "corr down"
    ∧ docRecordOf (getDocument repoCorrFail sampleArgs).fst = some
        { id := 123
          title := "T"
          content := "body"
          tags := []
          correspondent := none
          created := "c"
          document_type := "d"
          added := "a"
          modified := "m" }
    ∧ (getDocument repoCorrFail sampleArgs).fst.isError = false :=
  ⟨rfl,
    (C8_correspondent_degrade repoCorrFail sampleArgs "body" mdCorr rfl rfl
      (Or.inr ⟨9, rfl, Or.inl ⟨"corr down", rfl⟩⟩)).1,
    (C8_correspondent_degrade repoCorrFail sampleArgs "body" mdCorr rfl rfl
      (Or.inr ⟨9, rfl, Or.inl ⟨"corr down", rfl⟩⟩)).2⟩

/-- C10: on a retrieval call whose primary fetches succeed and whose
metadata carries the falsy correspondent identifier 0, the handler
skips the correspondent-name lookup entirely (the invocation flag is
false and the result is independent of the lookup function) and the
output correspondent field is null. -/
theorem C10_zero_correspondent (repo : RepoService) (args : ToolArgs)
    (content : String) (md : DocMetadata)
    (hc : repo.getDocumentContent args.document_id = .ok content)
    (hm : repo.getDocument args.document_id = .ok md)
    (h0 : md.correspondent = some 0) :
    (getDocument repo args).snd = false
    ∧ (docRecordOf (getDocument repo args).fst).map DocumentRecord.correspondent
        = some none
    ∧ ∀ g, getDocument
        { getDocumentContent := repo.getDocumentContent
          getDocument := repo.getDocument
          getTagNameById := repo.getTagNameById
          getCorrespondentNameById := g } args = getDocument repo args := by
  have hcorr : ∀ g : Int → Except String (Option CorrRecord),
      correspondentNameOf g md.correspondent = none := by
    intro g
    simp [correspondentNameOf, h0]
  refine ⟨?_, ?_, ?_⟩
  · rw [getDocument_ok repo args content md hc hm]
    simp [numTruthy, h0]
  · rw [getDocument_ok repo args content md hc hm, hcorr]
    rfl
  · intro g
    rw [getDocument_ok repo args content md hc hm,
      getDocument_ok
        { getDocumentContent := repo.getDocumentContent
          getDocument := repo.getDocument
          getTagNameById := repo.getTagNameById
          getCorrespondentNameById := g } args content md hc hm]
    rw [hcorr, hcorr]

/-- C10 witness: at a repository whose lookup would resolve to the name
SomeCorp but whose metadata carries the identifier 0, the concrete
retrieval call performs no lookup and returns a null correspondent. -/
theorem C10_zero_correspondent_witness :
    mdZero.correspondent = some 0
    ∧ (getDocument repoZero sampleArgs).snd = false
    ∧ (docRecordOf (getDocument repoZero sampleArgs).fst).map
        DocumentRecord.correspondent = some none :=
  ⟨rfl,
    (C10_zero_correspondent repoZero sampleArgs "zb" mdZero rfl rfl rfl).1,
    (C10_zero_correspondent repoZero sampleArgs "zb" mdZero rfl rfl rfl).2.1⟩
